import Mathlib

/-!
Verification of the websocketpp per-connection session engine
(src/src/websocket_session.hpp).

The session class is embedded shallowly: the mutable C++ member state of
the session object becomes the Session structure, each member function
becomes a pure Lean function from Session to Session, and the side
effects observable by the application and by the wire (on_open, on_close,
on_message deliveries, frames written, warning logs) are collected in a
List Output.  Fallible processing (the frame exceptions thrown by the
process_ helpers) is modelled with Except; since C++ mutations performed
before a throw persist, the error value carries the mutated session
alongside the exception record.

Components of the repository that the session uses but whose sources are
not under src (the frame parser of websocket_frame.hpp, the close status
catalog of websocketpp.hpp, the sha1, base64 and utf8_validator
libraries) are modelled from the spec; every such definition carries a
doc comment starting with the words Modelled from the spec.
-/

set_option maxRecDepth 20000

namespace Websocketpp

/-- Wire opcodes of RFC 6455 as dispatched by session::process_frame. -/
inductive Opcode
  | CONTINUATION
  | TEXT
  | BINARY
  | CLOSE
  | PING
  | PONG
deriving DecidableEq

/-- The connection state enumeration from namespace state of the source. -/
inductive StateVal
  | CONNECTING
  | OPEN
  | CLOSING
  | CLOSED
deriving DecidableEq

/-- Modelled from the spec: the close status codes of the catalog in
section 4.7 (the numeric constants live in websocketpp.hpp, which is not
under src).  NORMAL = 1000. -/
def NORMAL : Nat := 1000

/-- Modelled from the spec: PROTOCOL_ERROR = 1002. -/
def PROTOCOL_ERROR : Nat := 1002

/-- Modelled from the spec: NO_STATUS = 1005, never sent on the wire. -/
def NO_STATUS : Nat := 1005

/-- Modelled from the spec: ABNORMAL_CLOSE = 1006, never sent on the wire. -/
def ABNORMAL_CLOSE : Nat := 1006

/-- Modelled from the spec: INVALID_PAYLOAD = 1007. -/
def INVALID_PAYLOAD : Nat := 1007

/-- Modelled from the spec: POLICY_VIOLATION = 1008. -/
def POLICY_VIOLATION : Nat := 1008

/-- A fully decoded incoming or outgoing frame, as surfaced by the frame
parser to the session: fin bit, opcode and payload bytes, plus the close
status and close reason that the parser extracts from CLOSE frames. -/
structure Frame where
  fin : Bool
  opcode : Opcode
  payload : List Nat
  close_status : Nat := 1005
  close_msg : String := ""
deriving DecidableEq

/-- The error kinds of the frame exception class used by the session. -/
inductive FrameErrCode
  | FATAL_SESSION_ERROR
  | SOFT_SESSION_ERROR
  | PROTOCOL_VIOLATION
  | PAYLOAD_VIOLATION
  | INTERNAL_SERVER_ERROR
deriving DecidableEq

/-- A thrown frame exception: message text and error kind. -/
structure FrameEx where
  msg : String
  code : FrameErrCode
deriving DecidableEq

/-- Observable effects of the session: a message delivered to the
application via on_message, a frame written to the wire, the on_open and
on_close application callbacks, and warning log lines. -/
inductive Output
  | message (opcode : Opcode) (payload : List Nat)
  | frame (f : Frame)
  | onOpen
  | onClose
  | warnLog (msg : String)
deriving DecidableEq

/-- The mutable member state of the session object that the claims are
about: connection state, message assembler state (m_fragmented,
m_current_opcode, m_current_message, the streaming UTF-8 validator pair)
and the close record. -/
structure Session where
  m_state : StateVal
  m_fragmented : Bool
  m_current_opcode : Opcode
  m_current_message : List Nat
  m_utf8_state : Nat
  m_utf8_codepoint : Nat
  m_local_close_code : Nat
  m_local_close_msg : String
  m_remote_close_code : Nat
  m_remote_close_msg : String
  m_was_clean : Bool
  m_closed_by_me : Bool
  m_dropped_by_me : Bool
deriving DecidableEq

/-- The two close status classification predicates that send_close reads
from the close status catalog (close::status::invalid and
close::status::reserved, defined outside src); the session model is
parameterised over them. -/
structure Cfg where
  close_invalid : Nat → Bool
  close_reserved : Nat → Bool

/-- Modelled from the spec: the set of codes invalid on the wire per
section 4.7, namely 1005, 1006 and anything above 65535. -/
def spec_close_invalid (s : Nat) : Bool :=
  s == 1005 || s == 1006 || decide (s > 65535)

/-- Modelled from the spec: the codes reserved by the protocol per
section 4.7, namely 0 to 999, 1015 and above, and the 1012 to 1014
range. -/
def spec_close_reserved (s : Nat) : Bool :=
  decide (s ≤ 999) || decide (1012 ≤ s ∧ s ≤ 1014) || decide (1015 ≤ s)

/-- The spec instantiation of the close classification predicates. -/
def specCfg : Cfg :=
  { close_invalid := spec_close_invalid, close_reserved := spec_close_reserved }

/-- ASCII byte sequence of a string, used for TEXT payloads. -/
def strBytes (s : String) : List Nat := s.data.map Char.toNat

/-- Modelled from the spec: the initial (accepting) state of the
incremental UTF-8 validator DFA. -/
def UTF8_ACCEPT : Nat := 0

/-- Modelled from the spec: the absorbing rejection state of the
incremental UTF-8 validator DFA. -/
def UTF8_REJECT : Nat := 1

/-- Modelled from the spec: one step of the incremental UTF-8 validator
(utf8_validator::decode).  State 0 accepts a complete codepoint; state 1
rejects; states 2 to 8 encode the number of continuation bytes still
expected together with the lead byte range restrictions that exclude
overlong encodings, surrogates and codepoints above U+10FFFF.  The second
component is the partial codepoint accumulator. -/
def utf8_decode (state codep byte : Nat) : Nat × Nat :=
  if state = 0 then
    if byte ≤ 0x7F then (0, byte)
    else if 0xC2 ≤ byte ∧ byte ≤ 0xDF then (2, byte % 32)
    else if byte = 0xE0 then (4, byte % 16)
    else if 0xE1 ≤ byte ∧ byte ≤ 0xEC then (3, byte % 16)
    else if byte = 0xED then (5, byte % 16)
    else if 0xEE ≤ byte ∧ byte ≤ 0xEF then (3, byte % 16)
    else if byte = 0xF0 then (7, byte % 8)
    else if 0xF1 ≤ byte ∧ byte ≤ 0xF3 then (6, byte % 8)
    else if byte = 0xF4 then (8, byte % 8)
    else (1, codep)
  else if state = 2 then
    if 0x80 ≤ byte ∧ byte ≤ 0xBF then (0, codep * 64 + byte % 64) else (1, codep)
  else if state = 3 then
    if 0x80 ≤ byte ∧ byte ≤ 0xBF then (2, codep * 64 + byte % 64) else (1, codep)
  else if state = 4 then
    if 0xA0 ≤ byte ∧ byte ≤ 0xBF then (2, codep * 64 + byte % 64) else (1, codep)
  else if state = 5 then
    if 0x80 ≤ byte ∧ byte ≤ 0x9F then (2, codep * 64 + byte % 64) else (1, codep)
  else if state = 6 then
    if 0x80 ≤ byte ∧ byte ≤ 0xBF then (3, codep * 64 + byte % 64) else (1, codep)
  else if state = 7 then
    if 0x90 ≤ byte ∧ byte ≤ 0xBF then (3, codep * 64 + byte % 64) else (1, codep)
  else if state = 8 then
    if 0x80 ≤ byte ∧ byte ≤ 0x8F then (3, codep * 64 + byte % 64) else (1, codep)
  else (1, codep)

/-- Modelled from the spec: the validate_utf8 member of the frame parser,
which feeds every payload byte through the validator and fails the frame
immediately when the DFA reaches the rejection state (early rejection).
The error value carries the mutated validator pair, the success value the
final validator pair. -/
def validate_utf8 : Nat → Nat → List Nat → Except (Nat × Nat) (Nat × Nat)
  | state, codep, [] => Except.ok (state, codep)
  | state, codep, b :: rest =>
    let r := utf8_decode state codep b
    if r.1 = UTF8_REJECT then Except.error r
    else validate_utf8 r.1 r.2 rest

/-- True when feeding the byte list through the validator from the
initial state succeeds and lands back in the accepting state. -/
def utf8Accepts (bs : List Nat) : Bool :=
  match validate_utf8 UTF8_ACCEPT 0 bs with
  | Except.ok r => r.1 == UTF8_ACCEPT
  | Except.error _ => false

/-- session::send (std::string overload): emit a single final TEXT frame,
or drop with a warning log when the session is not OPEN. -/
def send_text (s : Session) (msg : String) : Session × List Output :=
  if s.m_state ≠ StateVal.OPEN then
    (s, [Output.warnLog "Tried to send a message from a session that was not open"])
  else
    (s, [Output.frame { fin := true, opcode := Opcode.TEXT, payload := strBytes msg }])

/-- session::send (byte vector overload): emit a single final BINARY
frame, or drop with a warning log when the session is not OPEN. -/
def send_binary (s : Session) (data : List Nat) : Session × List Output :=
  if s.m_state ≠ StateVal.OPEN then
    (s, [Output.warnLog "Tried to send a message from a session that was not open"])
  else
    (s, [Output.frame { fin := true, opcode := Opcode.BINARY, payload := data }])

/-- session::ping: emit a final PING frame, or drop with a warning log
when the session is not OPEN. -/
def ping (s : Session) (msg : String) : Session × List Output :=
  if s.m_state ≠ StateVal.OPEN then
    (s, [Output.warnLog "Tried to send a ping from a session that was not open"])
  else
    (s, [Output.frame { fin := true, opcode := Opcode.PING, payload := strBytes msg }])

/-- session::pong: emit a final PONG frame, or drop with a warning log
when the session is not OPEN. -/
def pong (s : Session) (msg : String) : Session × List Output :=
  if s.m_state ≠ StateVal.OPEN then
    (s, [Output.warnLog "Tried to send a pong from a session that was not open"])
  else
    (s, [Output.frame { fin := true, opcode := Opcode.PONG, payload := strBytes msg }])

/-- session::validate_app_close_status: the codes the application may
pass to close, namely NORMAL and the 4000 to 4999 range.  (The caller,
session::close, ignores the returned boolean.) -/
def validate_app_close_status (status : Nat) : Bool :=
  if status = NORMAL then true
  else if 4000 ≤ status ∧ status < 5000 then true
  else false

/-- The close frame rewriting chain of session::send_close: echo the
close value unless there is a good reason not to. -/
def close_frame_for (cfg : Cfg) (status : Nat) (reason : String) : Nat × String :=
  if status = NO_STATUS then (NORMAL, "")
  else if status = ABNORMAL_CLOSE then (POLICY_VIOLATION, reason)
  else if cfg.close_invalid status then (PROTOCOL_ERROR, "Status code is invalid")
  else if cfg.close_reserved status then (PROTOCOL_ERROR, "Status code is reserved")
  else (status, reason)

/-- session::send_close: when the session is OPEN, transition to CLOSING,
record the local close code and reason, and write a CLOSE frame whose
status and reason follow the rewriting chain; otherwise drop the request
with a warning log.  (The one second close-ack timer it arms is driven by
the closeTimer event below.) -/
def send_close (cfg : Cfg) (s : Session) (status : Nat) (reason : String) :
    Session × List Output :=
  if s.m_state ≠ StateVal.OPEN then
    (s, [Output.warnLog "Tried to disconnect a session that was not open"])
  else
    let s1 : Session :=
      { s with m_state := StateVal.CLOSING,
               m_local_close_code := status, m_local_close_msg := reason }
    let cr := close_frame_for cfg status reason
    (s1, [Output.frame { fin := true, opcode := Opcode.CLOSE, payload := [],
                         close_status := cr.1, close_msg := cr.2 }])

/-- session::close: validate the application close status (result unused
by the source) and delegate to send_close. -/
def close_api (cfg : Cfg) (s : Session) (status : Nat) (reason : String) :
    Session × List Output :=
  let _ := validate_app_close_status status
  send_close cfg s status reason

/-- session::drop_tcp: cancel timers, shut the socket, record who
dropped, and enter CLOSED. -/
def drop_tcp (s : Session) (dropped_by_me : Bool) : Session :=
  { s with m_dropped_by_me := dropped_by_me, m_state := StateVal.CLOSED }

/-- session::extract_payload: append the payload of the current read
frame to the message buffer. -/
def extract_payload (s : Session) (f : Frame) : Session :=
  { s with m_current_message := s.m_current_message ++ f.payload }

/-- session::reset_message: clear the assembler for a new message and put
the UTF-8 validator back into the initial accepting state. -/
def reset_message (s : Session) : Session :=
  { s with m_fragmented := false, m_current_message := [],
           m_utf8_state := UTF8_ACCEPT, m_utf8_codepoint := 0 }

/-- session::deliver_message: hand the completed message to on_message;
for TEXT the validator must have ended in the accepting state, otherwise
a PAYLOAD_VIOLATION frame exception is thrown.  Fragmented messages are
delivered from m_current_message, single frame messages straight from the
read frame payload. -/
def deliver_message (s : Session) (f : Frame) :
    Except (Session × FrameEx) (List Output) :=
  if s.m_current_opcode = Opcode.BINARY then
    if s.m_fragmented then Except.ok [Output.message Opcode.BINARY s.m_current_message]
    else Except.ok [Output.message Opcode.BINARY f.payload]
  else if s.m_current_opcode = Opcode.TEXT then
    if s.m_utf8_state ≠ UTF8_ACCEPT then
      Except.error (s, { msg := "Invalid UTF-8 Data",
                         code := FrameErrCode.PAYLOAD_VIOLATION })
    else if s.m_fragmented then Except.ok [Output.message Opcode.TEXT s.m_current_message]
    else Except.ok [Output.message Opcode.TEXT f.payload]
  else
    Except.error (s, { msg := "Attempted to deliver a message of unsupported opcode",
                       code := FrameErrCode.SOFT_SESSION_ERROR })

/-- session::process_binary: a data frame while a fragmented message is
outstanding is a PROTOCOL_VIOLATION; otherwise record the message opcode
and either deliver (fin) or start fragment accumulation (not fin). -/
def process_binary (s : Session) (f : Frame) :
    Except (Session × FrameEx) (Session × List Output) :=
  if s.m_fragmented then
    Except.error (s, { msg := "Got a new message before the previous was finished.",
                       code := FrameErrCode.PROTOCOL_VIOLATION })
  else
    let s1 : Session := { s with m_current_opcode := f.opcode }
    if f.fin then
      match deliver_message s1 f with
      | Except.ok out => Except.ok (reset_message s1, out)
      | Except.error e => Except.error e
    else
      Except.ok (extract_payload { s1 with m_fragmented := true } f, [])

/-- session::process_text: stream the payload through the UTF-8 validator
(early rejection throws PAYLOAD_VIOLATION and leaves the mutated
validator state behind), then treat the frame as binary. -/
def process_text (s : Session) (f : Frame) :
    Except (Session × FrameEx) (Session × List Output) :=
  match validate_utf8 s.m_utf8_state s.m_utf8_codepoint f.payload with
  | Except.error r =>
    Except.error ({ s with m_utf8_state := r.1, m_utf8_codepoint := r.2 },
      { msg := "Invalid UTF8 data", code := FrameErrCode.PAYLOAD_VIOLATION })
  | Except.ok r =>
    process_binary { s with m_utf8_state := r.1, m_utf8_codepoint := r.2 } f

/-- session::process_continuation: a CONTINUATION without an outstanding
fragmented message is a PROTOCOL_VIOLATION; for TEXT messages the payload
is validated starting from the carried validator state; the payload is
appended, and a fin frame completes and delivers the message. -/
def process_continuation (s : Session) (f : Frame) :
    Except (Session × FrameEx) (Session × List Output) :=
  if ¬ s.m_fragmented then
    Except.error (s, { msg := "Got a continuation frame without an outstanding message.",
                       code := FrameErrCode.PROTOCOL_VIOLATION })
  else
    match (if s.m_current_opcode = Opcode.TEXT then
             validate_utf8 s.m_utf8_state s.m_utf8_codepoint f.payload
           else Except.ok (s.m_utf8_state, s.m_utf8_codepoint)) with
    | Except.error r =>
      Except.error ({ s with m_utf8_state := r.1, m_utf8_codepoint := r.2 },
        { msg := "Invalid UTF8 data", code := FrameErrCode.PAYLOAD_VIOLATION })
    | Except.ok r =>
      let s1 := extract_payload { s with m_utf8_state := r.1, m_utf8_codepoint := r.2 } f
      if f.fin then
        match deliver_message s1 f with
        | Except.ok out => Except.ok (reset_message s1, out)
        | Except.error e => Except.error e
      else Except.ok (s1, [])

/-- session::process_close: record the remote close code and reason; in
OPEN this is a remote initiated close, so clear m_closed_by_me and send
the acknowledgement via send_close; in CLOSING this is the ack of our own
close, so set m_closed_by_me; both paths then mark the close clean and
enter CLOSED. -/
def process_close (cfg : Cfg) (s : Session) (f : Frame) :
    Except (Session × FrameEx) (Session × List Output) :=
  let s0 : Session := { s with m_remote_close_code := f.close_status,
                               m_remote_close_msg := f.close_msg }
  if s0.m_state = StateVal.OPEN then
    let s1 : Session := { s0 with m_closed_by_me := false }
    let r := send_close cfg s1 s1.m_remote_close_code s1.m_remote_close_msg
    Except.ok ({ r.1 with m_was_clean := true, m_state := StateVal.CLOSED }, r.2)
  else if s0.m_state = StateVal.CLOSING then
    Except.ok ({ s0 with m_closed_by_me := true, m_was_clean := true,
                         m_state := StateVal.CLOSED }, [])
  else
    Except.error (s0, { msg := "process_closed called from wrong state",
                        code := FrameErrCode.FATAL_SESSION_ERROR })

/-- session::process_ping: reply with a PONG frame echoing the payload. -/
def process_ping (s : Session) (f : Frame) : Session × List Output :=
  (s, [Output.frame { fin := true, opcode := Opcode.PONG, payload := f.payload }])

/-- session::process_pong: log only, no state change. -/
def process_pong (s : Session) : Session × List Output :=
  (s, [])

/-- session::process_frame: dispatch a fully decoded frame.  In OPEN the
opcode selects the processing helper; in CLOSING every frame except CLOSE
is ignored; any other state is a fatal error. -/
def process_frame (cfg : Cfg) (s : Session) (f : Frame) :
    Except (Session × FrameEx) (Session × List Output) :=
  if s.m_state = StateVal.OPEN then
    match f.opcode with
    | Opcode.CONTINUATION => process_continuation s f
    | Opcode.TEXT => process_text s f
    | Opcode.BINARY => process_binary s f
    | Opcode.CLOSE => process_close cfg s f
    | Opcode.PING => Except.ok (process_ping s f)
    | Opcode.PONG => Except.ok (process_pong s)
  else if s.m_state = StateVal.CLOSING then
    if f.opcode = Opcode.CLOSE then process_close cfg s f
    else Except.ok (s, [])
  else
    Except.error (s, { msg := "process_frame called from invalid state",
                       code := FrameErrCode.FATAL_SESSION_ERROR })

/-- The catch block of session::handle_read_frame for non soft errors:
PROTOCOL_VIOLATION answers with a PROTOCOL_ERROR close,
PAYLOAD_VIOLATION with an INVALID_PAYLOAD close, INTERNAL_SERVER_ERROR
with an ABNORMAL_CLOSE close, and anything else drops TCP at once. -/
def handle_error (cfg : Cfg) (s : Session) (e : FrameEx) : Session × List Output :=
  if e.code = FrameErrCode.PROTOCOL_VIOLATION then send_close cfg s PROTOCOL_ERROR e.msg
  else if e.code = FrameErrCode.PAYLOAD_VIOLATION then send_close cfg s INVALID_PAYLOAD e.msg
  else if e.code = FrameErrCode.INTERNAL_SERVER_ERROR then send_close cfg s ABNORMAL_CLOSE e.msg
  else (drop_tcp s true, [])

/-- Processing of one fully decoded frame together with the surrounding
try and catch of session::handle_read_frame (soft errors are ignored and
frame processing would continue). -/
def handle_frame (cfg : Cfg) (s : Session) (f : Frame) : Session × List Output :=
  match process_frame cfg s f with
  | Except.ok r => r
  | Except.error r =>
    if r.2.code = FrameErrCode.SOFT_SESSION_ERROR then (r.1, [])
    else handle_error cfg r.1 r.2

/-- The frame consumption loop of session::handle_read_frame: process the
fully decoded frames buffered in the read buffer in wire order while the
session has not reached CLOSED; a soft error skips the frame and
continues, any other frame exception runs the catch block and breaks. -/
def run_frames (cfg : Cfg) : Session → List Frame → Session × List Output
  | s, [] => (s, [])
  | s, f :: rest =>
    if s.m_state = StateVal.CLOSED then (s, [])
    else
      match process_frame cfg s f with
      | Except.ok r =>
        let t := run_frames cfg r.1 rest
        (t.1, r.2 ++ t.2)
      | Except.error r =>
        if r.2.code = FrameErrCode.SOFT_SESSION_ERROR then run_frames cfg r.1 rest
        else handle_error cfg r.1 r.2

/-- Completion status of an asynchronous read, as seen by
session::handle_read_frame. -/
inductive ReadErr
  | ok
  | eof
  | aborted
  | other
deriving DecidableEq

/-- session::handle_read_frame as a whole: entered only in OPEN or
CLOSING; an aborted read returns at once; any other read error forces
CLOSED before the buffer is examined; the buffered frames are then
consumed; an EOF read forces CLOSED afterwards; and when the session has
reached CLOSED the close result is logged and on_close is dispatched. -/
def handle_read_frame_ev (cfg : Cfg) (s : Session) (err : ReadErr) (fs : List Frame) :
    Session × List Output :=
  if s.m_state ≠ StateVal.OPEN ∧ s.m_state ≠ StateVal.CLOSING then (s, [])
  else if err = ReadErr.aborted then (s, [])
  else
    let s1 := if err = ReadErr.other then { s with m_state := StateVal.CLOSED } else s
    let r := run_frames cfg s1 fs
    let s2 := if err = ReadErr.eof then { r.1 with m_state := StateVal.CLOSED } else r.1
    if s2.m_state = StateVal.CLOSED then (s2, r.2 ++ [Output.onClose])
    else (s2, r.2)

/-- The asynchronous completions that can drive an open session: a read
completing (with an error status and the frames then decodable from the
buffer), the close-ack timer firing (session::handle_close_expired with
no error), a local close call, and a local send call. -/
inductive Event
  | read (err : ReadErr) (fs : List Frame)
  | closeTimer
  | localClose (status : Nat) (reason : String)
  | localText (msg : String)

/-- One step of the session event loop, dispatching an event to the
member function the source runs for it.  The closeTimer case is
session::handle_close_expired without error: outside CLOSED it drops TCP
with m_dropped_by_me cleared. -/
def session_step (cfg : Cfg) (s : Session) : Event → Session × List Output
  | Event.read err fs => handle_read_frame_ev cfg s err fs
  | Event.closeTimer => if s.m_state ≠ StateVal.CLOSED then (drop_tcp s false, []) else (s, [])
  | Event.localClose c r => close_api cfg s c r
  | Event.localText m => send_text s m

/-- Fold a list of events through the session, concatenating outputs. -/
def run_events (cfg : Cfg) : Session → List Event → Session × List Output
  | s, [] => (s, [])
  | s, e :: rest =>
    let r := session_step cfg s e
    let t := run_events cfg r.1 rest
    (t.1, r.2 ++ t.2)

/-- The member initialisation of the session constructor: CONNECTING,
both close codes NO_STATUS, all booleans cleared, validator in the
accepting state.  (m_fragmented and m_current_opcode are in fact left
uninitialised by the constructor until reset_message runs; the values
here are arbitrary placeholders that reset_message overwrites before any
frame is processed.) -/
def initSession : Session :=
  { m_state := StateVal.CONNECTING, m_fragmented := false,
    m_current_opcode := Opcode.BINARY, m_current_message := [],
    m_utf8_state := UTF8_ACCEPT, m_utf8_codepoint := 0,
    m_local_close_code := NO_STATUS, m_local_close_msg := "",
    m_remote_close_code := NO_STATUS, m_remote_close_msg := "",
    m_was_clean := false, m_closed_by_me := false, m_dropped_by_me := false }

/-- session::handle_write_handshake: a write error or a non 101 status
drops TCP; on success the session enters OPEN, on_open is dispatched and
the assembler is reset before frame reading begins. -/
def handle_write_handshake_ev (writeErr : Bool) (httpCode : Nat) (s : Session) :
    Session × List Output :=
  if writeErr then (drop_tcp s true, [])
  else if httpCode ≠ 101 then (drop_tcp s true, [])
  else (reset_message { s with m_state := StateVal.OPEN }, [Output.onOpen])

/-- A whole session run starting at the completion of the handshake
response write: the handshake outcome followed by the event loop. -/
def run_session (cfg : Cfg) (writeErr : Bool) (httpCode : Nat) (es : List Event) :
    Session × List Output :=
  let r := handle_write_handshake_ev writeErr httpCode initSession
  let t := run_events cfg r.1 es
  (t.1, r.2 ++ t.2)

/-- The session state right after a successful handshake (OPEN with the
assembler freshly reset), used as the concrete base state of witnesses. -/
def openSession : Session :=
  reset_message { initSession with m_state := StateVal.OPEN }

/-- Recogniser for on_message deliveries among the outputs. -/
def isMessageOut : Output → Bool
  | Output.message _ _ => true
  | _ => false

/-- The on_message deliveries among a list of outputs, in order. -/
def messagesOf (outs : List Output) : List Output :=
  outs.filter isMessageOut

/-- The output corresponding to writing a CLOSE frame with the given
status code and reason. -/
def closeFrameOut (c : Nat) (r : String) : Output :=
  Output.frame { fin := true, opcode := Opcode.CLOSE, payload := [],
                 close_status := c, close_msg := r }

/-- A frame that may stand between the initial data frame of a
fragmented message and its final CONTINUATION: a non final CONTINUATION
carrying more payload, or an interleaved PING or PONG control frame. -/
inductive MidFrame
  | cont (p : List Nat)
  | ping (p : List Nat)
  | pong (p : List Nat)

/-- The wire frame for a MidFrame. -/
def midToFrame : MidFrame → Frame
  | MidFrame.cont p => { fin := false, opcode := Opcode.CONTINUATION, payload := p }
  | MidFrame.ping p => { fin := true, opcode := Opcode.PING, payload := p }
  | MidFrame.pong p => { fin := true, opcode := Opcode.PONG, payload := p }

/-- Concatenation, in wire order, of the payloads of the CONTINUATION
frames among the interleaved middle frames. -/
def contPayloads : List MidFrame → List Nat
  | [] => []
  | MidFrame.cont p :: rest => p ++ contPayloads rest
  | MidFrame.ping _ :: rest => contPayloads rest
  | MidFrame.pong _ :: rest => contPayloads rest

/-- The initial frame of a fragmented data message: TEXT or BINARY with
the fin bit clear. -/
def firstDataFrame (op : Opcode) (p : List Nat) : Frame :=
  { fin := false, opcode := op, payload := p }

/-- The final frame of a fragmented data message: a CONTINUATION with the
fin bit set. -/
def lastContFrame (p : List Nat) : Frame :=
  { fin := true, opcode := Opcode.CONTINUATION, payload := p }

/-- C++ std::string::substr(pos, len): at most len characters starting at
pos. -/
def cppSubstr (s : String) (pos len : Nat) : String :=
  String.mk ((s.data.drop pos).take len)

/-- First index at which pat occurs as a contiguous sublist, if any. -/
def findSubIdx : List Char → List Char → Option Nat
  | [], pat => if pat.isEmpty then some 0 else none
  | h :: t, pat =>
    if pat.isPrefixOf (h :: t) then some 0 else (findSubIdx t pat).map (· + 1)

/-- C++ std::string::find(pat, start): the first occurrence of pat at or
after position start (none plays the role of npos). -/
def strFindFrom (s pat : String) (start : Nat) : Option Nat :=
  (findSubIdx (s.data.drop start) pat.data).map (· + start)

/-- boost::iequals: ASCII case-insensitive string equality. -/
def iequals (a b : String) : Bool :=
  a.toLower == b.toLower

/-- boost::ifind_first used as a containment test: pat occurs in hay
ASCII case-insensitively. -/
def icontains (hay pat : String) : Bool :=
  (strFindFrom hay.toLower pat.toLower 0).isSome

/-- Lookup in the header map (std::map is exact-match); a missing header
reads as the empty string, as in session::get_header. -/
def get_header (key : String) (hdrs : List (String × String)) : String :=
  match hdrs.find? (fun p => p.1 == key) with
  | some p => p.2
  | none => ""

/-- The whitespace class skipped by C atoi. -/
def isCSpace (c : Char) : Bool :=
  c == ' ' || c == '\t' || c == '\n' || c == '\r' || c == '\x0b' || c == '\x0c'

/-- Leading decimal digits accumulated into a number. -/
def atoiDigits : List Char → Nat → Nat
  | [], acc => acc
  | c :: t, acc => if c.isDigit then atoiDigits t (acc * 10 + (c.toNat - 48)) else acc

/-- C atoi: skip whitespace, optional sign, leading digits, 0 on no
digits. -/
def atoi (s : String) : Int :=
  match s.data.dropWhile isCSpace with
  | '-' :: t => - Int.ofNat (atoiDigits t 0)
  | '+' :: t => Int.ofNat (atoiDigits t 0)
  | t => Int.ofNat (atoiDigits t 0)

/-- Conversion of the atoi result to the unsigned int member m_version. -/
def cppUInt (i : Int) : Nat :=
  (i.emod 4294967296).toNat

/-- Identities of the handshake checks applied in order by
session::handle_read_handshake. -/
inductive HsCheck
  | badMethod
  | badHttpVersion
  | missingHost
  | badHost
  | missingUpgrade
  | badUpgrade
  | missingConnection
  | badConnection
  | missingKey
  | missingVersion
  | badVersion
deriving DecidableEq

/-- The data a successful handshake validation records: the resource
path, the protocol version and the HTTP status 101. -/
structure HsOk where
  resource : String
  version : Nat
  http_code : Nat
deriving DecidableEq

/-- The handshake error checking block of session::handle_read_handshake,
transcribed check for check in source order over the parsed request line
and header map; vh is the external validate_host predicate of the
endpoint.  The first failing check throws handshake_error with HTTP
status 400, which becomes the response status instead of 101. -/
def handle_read_handshake_checks (vh : String → Bool) (req : String)
    (hdrs : List (String × String)) : Except (HsCheck × Nat) HsOk :=
  if cppSubstr req 0 4 ≠ "GET " then Except.error (HsCheck.badMethod, 400)
  else
    match strFindFrom req " HTTP/1.1" 4 with
    | none => Except.error (HsCheck.badHttpVersion, 400)
    | some e =>
      let resource := cppSubstr req 4 (e - 4)
      let hHost := get_header "Host" hdrs
      if hHost = "" then Except.error (HsCheck.missingHost, 400)
      else if !vh hHost then Except.error (HsCheck.badHost, 400)
      else
        let hUp := get_header "Upgrade" hdrs
        if hUp = "" then Except.error (HsCheck.missingUpgrade, 400)
        else if !iequals hUp "websocket" then Except.error (HsCheck.badUpgrade, 400)
        else
          let hConn := get_header "Connection" hdrs
          if hConn = "" then Except.error (HsCheck.missingConnection, 400)
          else if !icontains hConn "upgrade" then Except.error (HsCheck.badConnection, 400)
          else if get_header "Sec-WebSocket-Key" hdrs = "" then
            Except.error (HsCheck.missingKey, 400)
          else
            let hVer := get_header "Sec-WebSocket-Version" hdrs
            if hVer = "" then Except.error (HsCheck.missingVersion, 400)
            else
              let v := cppUInt (atoi hVer)
              if v ≠ 7 ∧ v ≠ 8 ∧ v ≠ 13 then Except.error (HsCheck.badVersion, 400)
              else Except.ok { resource := resource, version := v, http_code := 101 }

/-- The resource path between the method and the HTTP version marker. -/
def hsResource (req : String) : String :=
  match strFindFrom req " HTTP/1.1" 4 with
  | some e => cppSubstr req 4 (e - 4)
  | none => ""

/-- The protocol version read from the Sec-WebSocket-Version header. -/
def hsVersion (hdrs : List (String × String)) : Nat :=
  cppUInt (atoi (get_header "Sec-WebSocket-Version" hdrs))

/-- Modelled from the spec: the ordered checklist of the handshake
validation in section 4.1, each check identity paired with its pass
condition (true means the check passes). -/
def hsCheckList (vh : String → Bool) (req : String) (hdrs : List (String × String)) :
    List (HsCheck × Bool) :=
  [ (HsCheck.badMethod, cppSubstr req 0 4 == "GET "),
    (HsCheck.badHttpVersion, (strFindFrom req " HTTP/1.1" 4).isSome),
    (HsCheck.missingHost, get_header "Host" hdrs != ""),
    (HsCheck.badHost, vh (get_header "Host" hdrs)),
    (HsCheck.missingUpgrade, get_header "Upgrade" hdrs != ""),
    (HsCheck.badUpgrade, iequals (get_header "Upgrade" hdrs) "websocket"),
    (HsCheck.missingConnection, get_header "Connection" hdrs != ""),
    (HsCheck.badConnection, icontains (get_header "Connection" hdrs) "upgrade"),
    (HsCheck.missingKey, get_header "Sec-WebSocket-Key" hdrs != ""),
    (HsCheck.missingVersion, get_header "Sec-WebSocket-Version" hdrs != ""),
    (HsCheck.badVersion,
      hsVersion hdrs == 7 || hsVersion hdrs == 8 || hsVersion hdrs == 13) ]

/-- The first check in the ordered list whose pass condition is false. -/
def firstFailing : List (HsCheck × Bool) → Option HsCheck
  | [] => none
  | (c, pass) :: rest => if pass then firstFailing rest else some c

/-- Modelled from the spec: validation in order, where the first failure
determines the HTTP error (400) and causes an error response rather than
101, and no later check matters. -/
def hsReference (vh : String → Bool) (req : String) (hdrs : List (String × String)) :
    Except (HsCheck × Nat) HsOk :=
  match firstFailing (hsCheckList vh req hdrs) with
  | some c => Except.error (c, 400)
  | none =>
    Except.ok { resource := hsResource req, version := hsVersion hdrs, http_code := 101 }

/-- Modelled from the spec: 32 bit truncation for the SHA-1 word
arithmetic (the sha1 library is not under src). -/
def w32 (n : Nat) : Nat := n % 4294967296

/-- Modelled from the spec: 32 bit left rotation. -/
def rotl32 (x n : Nat) : Nat :=
  w32 (x <<< n) ||| (x >>> (32 - n))

/-- Modelled from the spec: big endian serialization of a 32 bit word,
the network byte order of the htonl loop in session::write_handshake. -/
def be32bytes (n : Nat) : List Nat :=
  [n >>> 24 % 256, n >>> 16 % 256, n >>> 8 % 256, n % 256]

/-- Modelled from the spec: big endian serialization of the 64 bit
message bit length for SHA-1 padding. -/
def be64bytes (n : Nat) : List Nat :=
  [n >>> 56 % 256, n >>> 48 % 256, n >>> 40 % 256, n >>> 32 % 256,
   n >>> 24 % 256, n >>> 16 % 256, n >>> 8 % 256, n % 256]

/-- Modelled from the spec: SHA-1 message padding, a 0x80 byte, zeros to
8 bytes short of a 64 byte boundary, then the bit length. -/
def sha1padded (msg : List Nat) : List Nat :=
  let l := msg.length
  let z := (64 - ((l + 9) % 64)) % 64
  msg ++ 128 :: List.replicate z 0 ++ be64bytes (8 * l)

/-- Modelled from the spec: bytes grouped into big endian 32 bit words. -/
def toWords : List Nat → List Nat
  | a :: b :: c :: d :: rest =>
    (a * 16777216 + b * 65536 + c * 256 + d) :: toWords rest
  | _ => []

/-- Modelled from the spec: words grouped into 16 word blocks. -/
def toBlocks : List Nat → List (List Nat)
  | w0 :: w1 :: w2 :: w3 :: w4 :: w5 :: w6 :: w7 ::
    w8 :: w9 :: w10 :: w11 :: w12 :: w13 :: w14 :: w15 :: rest =>
    [w0, w1, w2, w3, w4, w5, w6, w7, w8, w9, w10, w11, w12, w13, w14, w15]
      :: toBlocks rest
  | _ => []

/-- Modelled from the spec: the SHA-1 message schedule extension, kept in
reverse so the words at offsets 3, 8, 14 and 16 sit near the head. -/
def sha1extendRev : Nat → List Nat → List Nat
  | 0, rev => rev
  | n + 1, rev =>
    let a := rev.getD 2 0
    let b := rev.getD 7 0
    let c := rev.getD 13 0
    let d := rev.getD 15 0
    sha1extendRev n (rotl32 (((a ^^^ b) ^^^ c) ^^^ d) 1 :: rev)

/-- Modelled from the spec: the SHA-1 round function for round i. -/
def sha1f (i b c d : Nat) : Nat :=
  if i < 20 then (b &&& c) ||| ((b ^^^ 4294967295) &&& d)
  else if i < 40 then (b ^^^ c) ^^^ d
  else if i < 60 then ((b &&& c) ||| (b &&& d)) ||| (c &&& d)
  else (b ^^^ c) ^^^ d

/-- Modelled from the spec: the SHA-1 round constant for round i. -/
def sha1k (i : Nat) : Nat :=
  if i < 20 then 0x5A827999
  else if i < 40 then 0x6ED9EBA1
  else if i < 60 then 0x8F1BBCDC
  else 0xCA62C1D6

/-- Modelled from the spec: the 80 SHA-1 rounds over the schedule. -/
def sha1rounds : Nat → List Nat → Nat × Nat × Nat × Nat × Nat → Nat × Nat × Nat × Nat × Nat
  | _, [], st => st
  | i, wrd :: ws, (a, b, c, d, e) =>
    let t := w32 (rotl32 a 5 + sha1f i b c d + e + sha1k i + wrd)
    sha1rounds (i + 1) ws (t, a, rotl32 b 30, c, d)

/-- Modelled from the spec: one SHA-1 block compression. -/
def sha1block (h : Nat × Nat × Nat × Nat × Nat) (block : List Nat) :
    Nat × Nat × Nat × Nat × Nat :=
  let ws := (sha1extendRev 64 block.reverse).reverse
  match h, sha1rounds 0 ws h with
  | (h0, h1, h2, h3, h4), (a, b, c, d, e) =>
    (w32 (h0 + a), w32 (h1 + b), w32 (h2 + c), w32 (h3 + d), w32 (h4 + e))

/-- Modelled from the spec: SHA-1 of a byte sequence, with the five state
words serialized in network byte order as 20 bytes (the htonl loop of
session::write_handshake). -/
def sha1 (msg : List Nat) : List Nat :=
  match (toBlocks (toWords (sha1padded msg))).foldl sha1block
      (0x67452301, 0xEFCDAB89, 0x98BADCFE, 0x10325476, 0xC3D2E1F0) with
  | (h0, h1, h2, h3, h4) =>
    be32bytes h0 ++ be32bytes h1 ++ be32bytes h2 ++ be32bytes h3 ++ be32bytes h4

/-- Modelled from the spec: the base64 alphabet character for an index. -/
def b64char (n : Nat) : Char :=
  "ABCDEFGHIJKLMNOPQRSTUVWXYZabcdefghijklmnopqrstuvwxyz0123456789+/".data.getD n 'A'

/-- Modelled from the spec: base64 encoding of a byte sequence (the
base64_encode library routine is not under src). -/
def base64_chars : List Nat → List Char
  | [] => []
  | [a] => [b64char (a >>> 2), b64char ((a % 4) <<< 4), '=', '=']
  | [a, b] =>
    [b64char (a >>> 2), b64char (((a % 4) <<< 4) ||| (b >>> 4)),
     b64char ((b % 16) <<< 2), '=']
  | a :: b :: c :: rest =>
    b64char (a >>> 2) :: b64char (((a % 4) <<< 4) ||| (b >>> 4)) ::
    b64char (((b % 16) <<< 2) ||| (c >>> 6)) :: b64char (c % 64) :: base64_chars rest

/-- Modelled from the spec: base64 encoding producing a string. -/
def base64_encode (bs : List Nat) : String :=
  String.mk (base64_chars bs)

/-- The protocol GUID appended to the client key, the literal from
session::write_handshake. -/
def GUID : String := "258EAFA5-E914-47DA-95CA-C5AB0DC85B11"

/-- The Sec-WebSocket-Accept computation of session::write_handshake on
the 101 path: base64 of the SHA-1 digest, serialized in network byte
order, of the client key concatenated with the GUID. -/
def write_handshake_accept (key : String) : String :=
  base64_encode (sha1 (strBytes (key ++ GUID)))

/-- The error kind of a processing result, if it is an error. -/
def errCodeOf (r : Except (Session × FrameEx) (Session × List Output)) :
    Option FrameErrCode :=
  match r with
  | Except.error e => some e.2.code
  | Except.ok _ => none

/-- A session in the CLOSING state, for witnesses. -/
def closingSession : Session :=
  { openSession with m_state := StateVal.CLOSING }

/-- A PING frame carrying one byte, for witnesses. -/
def pingFrame : Frame :=
  { fin := true, opcode := Opcode.PING, payload := [120] }

/-- A CLOSE frame carrying a NORMAL status, for witnesses. -/
def ackFrame : Frame :=
  { fin := true, opcode := Opcode.CLOSE, payload := [3, 232],
    close_status := 1000, close_msg := "" }

/-- An OPEN session in the middle of a fragmented BINARY message, for
witnesses and counterexamples. -/
def fragBinSession : Session :=
  { openSession with m_fragmented := true, m_current_opcode := Opcode.BINARY,
                     m_current_message := [65] }

/-- An OPEN session in the middle of a fragmented TEXT message whose
carried validator state expects one more continuation byte (a 0xC3 lead
byte has been consumed), for witnesses. -/
def fragTextSession : Session :=
  { openSession with m_fragmented := true, m_current_opcode := Opcode.TEXT,
                     m_current_message := [195], m_utf8_state := 2,
                     m_utf8_codepoint := 3 }

/-- A final TEXT frame whose payload is the lead byte 0xC0, which the
validator rejects immediately, for counterexamples. -/
def badTextFrame : Frame :=
  { fin := true, opcode := Opcode.TEXT, payload := [192] }

/-- A final BINARY frame with empty payload, for witnesses. -/
def binFinFrame : Frame :=
  { fin := true, opcode := Opcode.BINARY, payload := [] }

/-- A final CONTINUATION frame with empty payload, for witnesses. -/
def emptyContFin : Frame :=
  { fin := true, opcode := Opcode.CONTINUATION, payload := [] }

/-!
Theorems settling the claims, with shared helper lemmas first.
-/

/-- send_close never produces an on_message delivery. -/
lemma messagesOf_send_close (cfg : Cfg) (s : Session) (st : Nat) (r : String) :
    messagesOf (send_close cfg s st r).2 = [] := by
  unfold send_close messagesOf
  split <;> simp [isMessageOut]

/-- The catch block never produces an on_message delivery. -/
lemma messagesOf_handle_error (cfg : Cfg) (s : Session) (e : FrameEx) :
    messagesOf (handle_error cfg s e).2 = [] := by
  unfold handle_error
  split
  · exact messagesOf_send_close cfg s PROTOCOL_ERROR e.msg
  · split
    · exact messagesOf_send_close cfg s INVALID_PAYLOAD e.msg
    · split
      · exact messagesOf_send_close cfg s ABNORMAL_CLOSE e.msg
      · simp [messagesOf]

/-- C2: on the 101 success path, the Sec-WebSocket-Accept value equals
base64 of the SHA-1 digest, serialized as 20 bytes in network byte order,
of the client key concatenated with the GUID; in particular the canonical
version 13 client key yields the canonical accept value. -/
theorem accept_key_computation :
    write_handshake_accept "dGhlIHNhbXBsZSBub25jZQ==" = "s3pPLMBiTxaQ9kYGzzhZRbK+xOo=" ∧
    ∀ key : String,
      write_handshake_accept key = base64_encode (sha1 (strBytes (key ++ GUID))) :=
  ⟨by decide, fun _ => rfl⟩

/-- C9: a send, ping or pong issued while the session state is not OPEN
only logs a warning; the session value is returned unchanged and no frame
output is produced. -/
theorem sends_dropped_outside_open (s : Session) (msg : String) (data : List Nat)
    (pmsg qmsg : String) (h : s.m_state ≠ StateVal.OPEN) :
    send_text s msg =
      (s, [Output.warnLog "Tried to send a message from a session that was not open"]) ∧
    send_binary s data =
      (s, [Output.warnLog "Tried to send a message from a session that was not open"]) ∧
    ping s pmsg =
      (s, [Output.warnLog "Tried to send a ping from a session that was not open"]) ∧
    pong s qmsg =
      (s, [Output.warnLog "Tried to send a pong from a session that was not open"]) := by
  unfold send_text send_binary ping pong
  simp [h]

/-- Witness for C9 at the freshly constructed CONNECTING session. -/
theorem sends_dropped_outside_open_witness :
    initSession.m_state ≠ StateVal.OPEN ∧
    send_text initSession "hi" =
      (initSession,
       [Output.warnLog "Tried to send a message from a session that was not open"]) :=
  ⟨by decide, (sends_dropped_outside_open initSession "hi" [1] "p" "q" (by decide)).1⟩

/-- C10: while the session is CLOSING, a fully decoded frame whose opcode
is not CLOSE is ignored: processing succeeds with no output and the
session (assembler state included) is returned unchanged. -/
theorem closing_ignores_non_close (cfg : Cfg) (s : Session) (f : Frame)
    (h1 : s.m_state = StateVal.CLOSING) (h2 : f.opcode ≠ Opcode.CLOSE) :
    process_frame cfg s f = Except.ok (s, []) := by
  unfold process_frame
  rw [h1]
  simp [h2]

/-- Witness for C10: a PING received while CLOSING is ignored. -/
theorem closing_ignores_non_close_witness :
    closingSession.m_state = StateVal.CLOSING ∧
    pingFrame.opcode ≠ Opcode.CLOSE ∧
    process_frame specCfg closingSession pingFrame = Except.ok (closingSession, []) :=
  ⟨rfl, by decide, closing_ignores_non_close specCfg closingSession pingFrame rfl (by decide)⟩

/-- C3: a close initiated in OPEN with status code S transitions to
CLOSING and emits exactly one CLOSE frame whose status and reason follow
the rewriting chain: NO_STATUS becomes NORMAL with empty reason;
ABNORMAL_CLOSE becomes POLICY_VIOLATION with the given reason; a code in
the invalid set becomes PROTOCOL_ERROR with reason Status code is
invalid; a code in the reserved set becomes PROTOCOL_ERROR with reason
Status code is reserved; any other code is echoed with its reason. -/
theorem send_close_emission (cfg : Cfg) (s : Session) (status : Nat) (reason : String)
    (h : s.m_state = StateVal.OPEN) :
    (send_close cfg s status reason).1.m_state = StateVal.CLOSING ∧
    (status = NO_STATUS →
      (send_close cfg s status reason).2 = [closeFrameOut NORMAL ""]) ∧
    (status = ABNORMAL_CLOSE →
      (send_close cfg s status reason).2 = [closeFrameOut POLICY_VIOLATION reason]) ∧
    (status ≠ NO_STATUS → status ≠ ABNORMAL_CLOSE → cfg.close_invalid status = true →
      (send_close cfg s status reason).2 =
        [closeFrameOut PROTOCOL_ERROR "Status code is invalid"]) ∧
    (status ≠ NO_STATUS → status ≠ ABNORMAL_CLOSE → cfg.close_invalid status = false →
      cfg.close_reserved status = true →
      (send_close cfg s status reason).2 =
        [closeFrameOut PROTOCOL_ERROR "Status code is reserved"]) ∧
    (status ≠ NO_STATUS → status ≠ ABNORMAL_CLOSE → cfg.close_invalid status = false →
      cfg.close_reserved status = false →
      (send_close cfg s status reason).2 = [closeFrameOut status reason]) := by
  unfold send_close close_frame_for closeFrameOut
  rw [h]
  refine ⟨by simp, ?_, ?_, ?_, ?_, ?_⟩
  · intro h5
    simp [h5, NO_STATUS, NORMAL]
  · intro h6
    simp [h6, NO_STATUS, ABNORMAL_CLOSE, POLICY_VIOLATION]
  · intro h5 h6 hinv
    simp [h5, h6, hinv, PROTOCOL_ERROR]
  · intro h5 h6 hinv hres
    simp [h5, h6, hinv, hres, PROTOCOL_ERROR]
  · intro h5 h6 hinv hres
    simp [h5, h6, hinv, hres]

/-- Witness for C3: closing an open session with the ABNORMAL_CLOSE
sentinel emits POLICY_VIOLATION with the provided reason. -/
theorem send_close_emission_witness :
    openSession.m_state = StateVal.OPEN ∧
    (send_close specCfg openSession 1006 "oops").2 =
      [closeFrameOut POLICY_VIOLATION "oops"] :=
  ⟨rfl, (send_close_emission specCfg openSession 1006 "oops" rfl).2.2.1 rfl⟩

/-- C7 counterexample: a local close() call moves the session from OPEN
to CLOSING but leaves m_closed_by_me false at the transition, against the
claim that the transition caused by a local close records it as true
(send_close never touches m_closed_by_me; it is only set when the
acknowledgement arrives). -/
theorem closed_by_me_at_transition_cex :
    (close_api specCfg openSession 1000 "bye").1.m_state = StateVal.CLOSING ∧
    (close_api specCfg openSession 1000 "bye").1.m_closed_by_me = false := by
  decide

/-- C7 (amended): a remote CLOSE received in OPEN records m_closed_by_me
as false during the transition; a local close() leaves m_closed_by_me
unchanged when transitioning OPEN to CLOSING, and m_closed_by_me becomes
true only when the acknowledging CLOSE frame is received in CLOSING. -/
theorem closed_by_me_recording (cfg : Cfg) (s : Session) (f : Frame)
    (status : Nat) (reason : String) :
    (s.m_state = StateVal.OPEN →
      (send_close cfg s status reason).1.m_closed_by_me = s.m_closed_by_me ∧
      (send_close cfg s status reason).1.m_state = StateVal.CLOSING) ∧
    (s.m_state = StateVal.OPEN → f.opcode = Opcode.CLOSE →
      match process_frame cfg s f with
      | Except.ok r =>
        r.1.m_closed_by_me = false ∧ r.1.m_state = StateVal.CLOSED ∧
        r.1.m_was_clean = true
      | Except.error _ => False) ∧
    (s.m_state = StateVal.CLOSING → f.opcode = Opcode.CLOSE →
      match process_frame cfg s f with
      | Except.ok r =>
        r.1.m_closed_by_me = true ∧ r.1.m_state = StateVal.CLOSED ∧
        r.1.m_was_clean = true
      | Except.error _ => False) := by
  refine ⟨?_, ?_, ?_⟩
  · intro h
    unfold send_close
    simp [h]
  · intro h hc
    unfold process_frame process_close send_close
    simp [h, hc]
  · intro h hc
    unfold process_frame process_close send_close
    simp [h, hc]

/-- Witness for C7: the ack of our own close sets m_closed_by_me, while
the local close itself leaves it at its previous value. -/
theorem closed_by_me_recording_witness :
    openSession.m_state = StateVal.OPEN ∧
    (send_close specCfg openSession 1000 "x").1.m_closed_by_me
      = openSession.m_closed_by_me ∧
    closingSession.m_state = StateVal.CLOSING ∧
    (match process_frame specCfg closingSession ackFrame with
     | Except.ok r =>
       r.1.m_closed_by_me = true ∧ r.1.m_state = StateVal.CLOSED ∧
       r.1.m_was_clean = true
     | Except.error _ => False) :=
  ⟨rfl, ((closed_by_me_recording specCfg openSession ackFrame 1000 "x").1 rfl).1,
   rfl, (closed_by_me_recording specCfg closingSession ackFrame 1000 "x").2.2 rfl rfl⟩

/-- C8: evaluation at the failing input.  After a successful handshake
(on_open dispatched), a local close followed by expiry of the one second
close-ack timer drops TCP and reaches CLOSED, and the pending read then
completes as aborted and returns before the on_close dispatch point: the
session ends CLOSED with one on_open and zero on_close callbacks, against
the claim that on_close is invoked exactly once whenever on_open was. -/
theorem close_timeout_misses_on_close :
    (run_session specCfg false 101
        [Event.localClose 1000 "", Event.closeTimer,
         Event.read ReadErr.aborted []]).1.m_state = StateVal.CLOSED ∧
    (run_session specCfg false 101
        [Event.localClose 1000 "", Event.closeTimer,
         Event.read ReadErr.aborted []]).2.count Output.onOpen = 1 ∧
    (run_session specCfg false 101
        [Event.localClose 1000 "", Event.closeTimer,
         Event.read ReadErr.aborted []]).2.count Output.onClose = 0 := by
  decide

/-- C6 counterexample: while OPEN with a fragmented BINARY message
outstanding, a TEXT frame whose payload byte 0xC0 fails UTF-8 validation
raises PAYLOAD_VIOLATION, not the claimed PROTOCOL_VIOLATION, because the
validation in process_text runs before the fragmentation check of
process_binary. -/
theorem frag_violation_kind_cex :
    errCodeOf (process_frame specCfg fragBinSession badTextFrame)
      = some FrameErrCode.PAYLOAD_VIOLATION ∧
    some FrameErrCode.PAYLOAD_VIOLATION ≠ some FrameErrCode.PROTOCOL_VIOLATION := by
  decide

/-- C6 (amended): while OPEN, a BINARY frame during a fragmented message
raises PROTOCOL_VIOLATION; a TEXT frame during a fragmented message
raises PROTOCOL_VIOLATION provided its payload passes incremental UTF-8
validation from the carried state, and PAYLOAD_VIOLATION when the
validation fails; a CONTINUATION without a fragmented message in progress
raises PROTOCOL_VIOLATION; and no erroring frame ever produces an
on_message delivery. -/
theorem frag_interleave_violations (cfg : Cfg) (s : Session) (f : Frame) (st cp : Nat)
    (hopen : s.m_state = StateVal.OPEN) :
    (s.m_fragmented = true → f.opcode = Opcode.BINARY →
      process_frame cfg s f = Except.error (s,
        { msg := "Got a new message before the previous was finished.",
          code := FrameErrCode.PROTOCOL_VIOLATION })) ∧
    (s.m_fragmented = true → f.opcode = Opcode.TEXT →
      validate_utf8 s.m_utf8_state s.m_utf8_codepoint f.payload = Except.ok (st, cp) →
      process_frame cfg s f = Except.error
        ({ s with m_utf8_state := st, m_utf8_codepoint := cp },
         { msg := "Got a new message before the previous was finished.",
           code := FrameErrCode.PROTOCOL_VIOLATION })) ∧
    (f.opcode = Opcode.TEXT →
      validate_utf8 s.m_utf8_state s.m_utf8_codepoint f.payload = Except.error (st, cp) →
      process_frame cfg s f = Except.error
        ({ s with m_utf8_state := st, m_utf8_codepoint := cp },
         { msg := "Invalid UTF8 data", code := FrameErrCode.PAYLOAD_VIOLATION })) ∧
    (s.m_fragmented = false → f.opcode = Opcode.CONTINUATION →
      process_frame cfg s f = Except.error (s,
        { msg := "Got a continuation frame without an outstanding message.",
          code := FrameErrCode.PROTOCOL_VIOLATION })) ∧
    (∀ sx ex, process_frame cfg s f = Except.error (sx, ex) →
      messagesOf (handle_frame cfg s f).2 = []) := by
  refine ⟨?_, ?_, ?_, ?_, ?_⟩
  · intro hf hb
    unfold process_frame process_binary
    simp [hopen, hb, hf]
  · intro hf ht hv
    unfold process_frame process_text process_binary
    simp [hopen, ht, hv, hf]
  · intro ht hv
    unfold process_frame process_text
    simp [hopen, ht, hv]
  · intro hf hc
    unfold process_frame process_continuation
    simp [hopen, hc, hf]
  · intro sx ex hpf
    unfold handle_frame
    rw [hpf]
    by_cases hc : ex.code = FrameErrCode.SOFT_SESSION_ERROR
    · simp [hc, messagesOf]
    · simp [hc, messagesOf_handle_error]

/-- Witness for C6: a final BINARY frame arriving during a fragmented
BINARY message raises PROTOCOL_VIOLATION. -/
theorem frag_interleave_violations_witness :
    fragBinSession.m_state = StateVal.OPEN ∧
    fragBinSession.m_fragmented = true ∧
    process_frame specCfg fragBinSession binFinFrame = Except.error
      (fragBinSession,
       { msg := "Got a new message before the previous was finished.",
         code := FrameErrCode.PROTOCOL_VIOLATION }) :=
  ⟨rfl, rfl,
   (frag_interleave_violations specCfg fragBinSession binFinFrame 0 0 rfl).1 rfl rfl⟩

/-- C5: the validator state is carried across the CONTINUATION frames of
a TEXT message (each continuation validates its payload starting from
the stored validator pair), delivery of a completed message resets the
validator to the accepting state for the next message, and a TEXT
message completing with the validator outside the accepting state is not
delivered: PAYLOAD_VIOLATION is raised and the catch block answers it
with a CLOSE carrying the INVALID_PAYLOAD status. -/
theorem utf8_state_threading (cfg : Cfg) (s : Session) (f : Frame) (st cp : Nat)
    (hopen : s.m_state = StateVal.OPEN) (hfrag : s.m_fragmented = true)
    (hop : s.m_current_opcode = Opcode.TEXT) (hcont : f.opcode = Opcode.CONTINUATION)
    (hval : validate_utf8 s.m_utf8_state s.m_utf8_codepoint f.payload
              = Except.ok (st, cp)) :
    (f.fin = false →
      process_frame cfg s f = Except.ok
        ({ s with m_utf8_state := st, m_utf8_codepoint := cp,
                  m_current_message := s.m_current_message ++ f.payload }, [])) ∧
    (f.fin = true → st = UTF8_ACCEPT →
      process_frame cfg s f = Except.ok
        (reset_message { s with m_utf8_state := st, m_utf8_codepoint := cp,
                                m_current_message := s.m_current_message ++ f.payload },
         [Output.message Opcode.TEXT (s.m_current_message ++ f.payload)])) ∧
    (∀ t : Session, (reset_message t).m_utf8_state = UTF8_ACCEPT) ∧
    (f.fin = true → st ≠ UTF8_ACCEPT →
      process_frame cfg s f = Except.error
        ({ s with m_utf8_state := st, m_utf8_codepoint := cp,
                  m_current_message := s.m_current_message ++ f.payload },
         { msg := "Invalid UTF-8 Data", code := FrameErrCode.PAYLOAD_VIOLATION }) ∧
      handle_frame cfg s f = send_close cfg
        { s with m_utf8_state := st, m_utf8_codepoint := cp,
                 m_current_message := s.m_current_message ++ f.payload }
        INVALID_PAYLOAD "Invalid UTF-8 Data" ∧
      messagesOf (handle_frame cfg s f).2 = []) := by
  refine ⟨?_, ?_, fun t => rfl, ?_⟩
  · intro hfin
    unfold process_frame process_continuation extract_payload
    simp [hopen, hcont, hop, hval, hfin, hfrag]
  · intro hfin hacc
    unfold process_frame process_continuation extract_payload deliver_message
    simp [hopen, hcont, hop, hval, hfin, hfrag, hacc]
  · intro hfin hacc
    have hpf : process_frame cfg s f = Except.error
        ({ s with m_utf8_state := st, m_utf8_codepoint := cp,
                  m_current_message := s.m_current_message ++ f.payload },
         { msg := "Invalid UTF-8 Data", code := FrameErrCode.PAYLOAD_VIOLATION }) := by
      unfold process_frame process_continuation extract_payload deliver_message
      simp [hopen, hcont, hop, hval, hfin, hfrag, hacc]
    refine ⟨hpf, ?_, ?_⟩
    · unfold handle_frame handle_error
      rw [hpf]
      simp
    · unfold handle_frame
      rw [hpf]
      simp only []
      split
      · simp [messagesOf]
      · exact messagesOf_handle_error cfg _ _

/-- Witness for C5: a fragmented TEXT message whose final CONTINUATION
leaves the validator mid-codepoint is answered with an INVALID_PAYLOAD
close and no delivery. -/
theorem utf8_state_threading_witness :
    fragTextSession.m_state = StateVal.OPEN ∧
    fragTextSession.m_current_opcode = Opcode.TEXT ∧
    validate_utf8 fragTextSession.m_utf8_state fragTextSession.m_utf8_codepoint
      emptyContFin.payload = Except.ok (2, 3) ∧
    handle_frame specCfg fragTextSession emptyContFin = send_close specCfg
      { fragTextSession with m_utf8_state := 2, m_utf8_codepoint := 3, m_current_message := fragTextSession.m_current_message ++ emptyContFin.payload }
      INVALID_PAYLOAD "Invalid UTF-8 Data" :=
  ⟨rfl, rfl, rfl,
   ((utf8_state_threading specCfg fragTextSession emptyContFin 2 3
       rfl rfl rfl rfl rfl).2.2.2 rfl (by decide)).2.1⟩

/-- validate_utf8 over an append composes: validation of the second part
resumes from the validator pair the first part ended in. -/
lemma validate_utf8_append (st cp : Nat) (xs ys : List Nat) :
    validate_utf8 st cp (xs ++ ys) =
      (match validate_utf8 st cp xs with
       | Except.ok r => validate_utf8 r.1 r.2 ys
       | Except.error r => Except.error r) := by
  induction xs generalizing st cp with
  | nil => simp [validate_utf8]
  | cons b rest ih =>
    simp only [List.cons_append, validate_utf8]
    split
    · rfl
    · exact ih _ _

/-- Unfolding step of the frame loop when processing succeeds. -/
lemma run_frames_cons_ok (cfg : Cfg) (s s1 : Session) (f : Frame) (out : List Output)
    (rest : List Frame) (hs : s.m_state ≠ StateVal.CLOSED)
    (h : process_frame cfg s f = Except.ok (s1, out)) :
    run_frames cfg s (f :: rest)
      = ((run_frames cfg s1 rest).1, out ++ (run_frames cfg s1 rest).2) := by
  simp only [run_frames, if_neg hs, h]

/-- The invariant of the fragment accumulation loop: from an OPEN session
mid-fragment, processing the remaining interleaved frames up to and
including the final CONTINUATION delivers exactly one message whose bytes
are the accumulated buffer followed by the remaining continuation
payloads in wire order. -/
lemma run_frames_frag (cfg : Cfg) (op : Opcode) (pl : List Nat) :
    ∀ (mids : List MidFrame) (s : Session),
      s.m_state = StateVal.OPEN → s.m_fragmented = true → s.m_current_opcode = op →
      (op = Opcode.TEXT ∨ op = Opcode.BINARY) →
      (op = Opcode.TEXT →
        ∃ c, validate_utf8 s.m_utf8_state s.m_utf8_codepoint (contPayloads mids ++ pl)
              = Except.ok (UTF8_ACCEPT, c)) →
      messagesOf (run_frames cfg s (mids.map midToFrame ++ [lastContFrame pl])).2
        = [Output.message op (s.m_current_message ++ (contPayloads mids ++ pl))] := by
  intro mids
  induction mids with
  | nil =>
    intro s hst hfrag hop hopor hval
    have hs : s.m_state ≠ StateVal.CLOSED := by simp [hst]
    rcases hopor with hT | hB
    · subst hT
      obtain ⟨c, hc⟩ := hval rfl
      simp only [contPayloads, List.nil_append] at hc
      have hstep : process_frame cfg s (lastContFrame pl) = Except.ok
          (reset_message { s with m_utf8_state := UTF8_ACCEPT, m_utf8_codepoint := c,
                                  m_current_message := s.m_current_message ++ pl },
           [Output.message Opcode.TEXT (s.m_current_message ++ pl)]) := by
        unfold process_frame process_continuation extract_payload deliver_message lastContFrame
        simp [hst, hfrag, hop, hc, UTF8_ACCEPT]
      rw [List.map_nil, List.nil_append,
          run_frames_cons_ok cfg s _ (lastContFrame pl) _ [] hs hstep]
      simp [run_frames, messagesOf, isMessageOut, contPayloads]
    · subst hB
      have hstep : process_frame cfg s (lastContFrame pl) = Except.ok
          (reset_message { s with m_current_message := s.m_current_message ++ pl },
           [Output.message Opcode.BINARY (s.m_current_message ++ pl)]) := by
        unfold process_frame process_continuation extract_payload deliver_message lastContFrame
        simp [hst, hfrag, hop]
      rw [List.map_nil, List.nil_append,
          run_frames_cons_ok cfg s _ (lastContFrame pl) _ [] hs hstep]
      simp [run_frames, messagesOf, isMessageOut, contPayloads]
  | cons m rest ih =>
    intro s hst hfrag hop hopor hval
    have hs : s.m_state ≠ StateVal.CLOSED := by simp [hst]
    cases m with
    | cont p =>
      rcases hopor with hT | hB
      · subst hT
        obtain ⟨c, hc⟩ := hval rfl
        rw [show contPayloads (MidFrame.cont p :: rest) = p ++ contPayloads rest from rfl,
            List.append_assoc, validate_utf8_append] at hc
        cases hv1 : validate_utf8 s.m_utf8_state s.m_utf8_codepoint p with
        | error r => rw [hv1] at hc; exact absurd hc (by simp)
        | ok r =>
          rw [hv1] at hc
          have hstep : process_frame cfg s (midToFrame (MidFrame.cont p)) = Except.ok
              ({ s with m_utf8_state := r.1, m_utf8_codepoint := r.2,
                        m_current_message := s.m_current_message ++ p }, []) := by
            unfold process_frame process_continuation extract_payload midToFrame
            simp [hst, hfrag, hop, hv1]
          rw [List.map_cons, List.cons_append,
              run_frames_cons_ok cfg s _ _ _ _ hs hstep]
          simp only [List.nil_append, messagesOf, List.filter_append] at ih ⊢
          rw [ih _ (by simp [hst]) (by simp [hfrag]) (by simp [hop]) (Or.inl trivial)
                (fun _ => ⟨c, by simpa using hc⟩)]
          simp [contPayloads, List.append_assoc]
      · subst hB
        have hstep : process_frame cfg s (midToFrame (MidFrame.cont p)) = Except.ok
            ({ s with m_current_message := s.m_current_message ++ p }, []) := by
          unfold process_frame process_continuation extract_payload midToFrame
          simp [hst, hfrag, hop]
        rw [List.map_cons, List.cons_append,
            run_frames_cons_ok cfg s _ _ _ _ hs hstep]
        simp only [List.nil_append, messagesOf, List.filter_append] at ih ⊢
        rw [ih _ (by simp [hst]) (by simp [hfrag]) (by simp [hop]) (Or.inr trivial)
              (fun h => nomatch h)]
        simp [contPayloads, List.append_assoc]
    | ping p =>
      have hstep : process_frame cfg s (midToFrame (MidFrame.ping p)) = Except.ok
          (s, [Output.frame { fin := true, opcode := Opcode.PONG, payload := p }]) := by
        unfold process_frame process_ping midToFrame
        simp [hst]
      rw [List.map_cons, List.cons_append,
          run_frames_cons_ok cfg s _ _ _ _ hs hstep]
      simp only [messagesOf, List.filter_append] at ih ⊢
      rw [show contPayloads (MidFrame.ping p :: rest) = contPayloads rest from rfl]
      rw [ih _ hst hfrag hop hopor (fun h => hval h)]
      simp [isMessageOut]
    | pong p =>
      have hstep : process_frame cfg s (midToFrame (MidFrame.pong p)) = Except.ok
          (s, []) := by
        unfold process_frame process_pong midToFrame
        simp [hst]
      rw [List.map_cons, List.cons_append,
          run_frames_cons_ok cfg s _ _ _ _ hs hstep]
      simp only [messagesOf, List.filter_append] at ih ⊢
      rw [show contPayloads (MidFrame.pong p :: rest) = contPayloads rest from rfl]
      rw [ih _ hst hfrag hop hopor (fun h => hval h)]
      simp [isMessageOut]

/-- C4: for every fragmented data message, under any interleaving with
PING and PONG control frames, exactly one on_message delivery occurs and
its byte sequence equals the concatenation, in wire order, of the payload
of the initial data frame and the payloads of all its CONTINUATION frames
up to and including the final one.  (For a TEXT message the concatenation
must pass UTF-8 validation; an interleaved CLOSE frame would instead
terminate the connection before completion.) -/
theorem fragmented_message_assembly (cfg : Cfg) (op : Opcode) (p0 pl : List Nat)
    (mids : List MidFrame) (s : Session)
    (hopor : op = Opcode.TEXT ∨ op = Opcode.BINARY)
    (hst : s.m_state = StateVal.OPEN) (hfrag : s.m_fragmented = false)
    (hcur : s.m_current_message = []) (hu : s.m_utf8_state = UTF8_ACCEPT)
    (hcp : s.m_utf8_codepoint = 0)
    (hval : op = Opcode.TEXT → utf8Accepts (p0 ++ (contPayloads mids ++ pl)) = true) :
    messagesOf (run_frames cfg s
        (firstDataFrame op p0 :: (mids.map midToFrame ++ [lastContFrame pl]))).2
      = [Output.message op (p0 ++ (contPayloads mids ++ pl))] := by
  have hs : s.m_state ≠ StateVal.CLOSED := by simp [hst]
  rcases hopor with hT | hB
  · subst hT
    have h1 := hval rfl
    unfold utf8Accepts at h1
    rw [validate_utf8_append] at h1
    cases hv1 : validate_utf8 UTF8_ACCEPT 0 p0 with
    | error r => rw [hv1] at h1; simp at h1
    | ok r =>
      rw [hv1] at h1
      simp only at h1
      cases hv2 : validate_utf8 r.1 r.2 (contPayloads mids ++ pl) with
      | error r2 => rw [hv2] at h1; simp at h1
      | ok r2 =>
        rw [hv2] at h1
        simp only at h1
        obtain ⟨r21, r22⟩ := r2
        simp only [beq_iff_eq] at h1
        subst h1
        have hstep : process_frame cfg s (firstDataFrame Opcode.TEXT p0) = Except.ok
            ({ s with m_utf8_state := r.1, m_utf8_codepoint := r.2,
                      m_current_opcode := Opcode.TEXT, m_fragmented := true,
                      m_current_message := s.m_current_message ++ p0 }, []) := by
          unfold process_frame process_text process_binary extract_payload firstDataFrame
          simp [hst, hfrag, hu, hcp, hv1]
        rw [run_frames_cons_ok cfg s _ _ _ _ hs hstep]
        simp only [List.nil_append]
        rw [run_frames_frag cfg Opcode.TEXT pl mids _
              (by simp [hst]) (by simp) (by simp) (Or.inl rfl)
              (fun _ => ⟨r22, by simpa using hv2⟩)]
        simp [hcur]
  · subst hB
    have hstep : process_frame cfg s (firstDataFrame Opcode.BINARY p0) = Except.ok
        ({ s with m_current_opcode := Opcode.BINARY, m_fragmented := true,
                  m_current_message := s.m_current_message ++ p0 }, []) := by
      unfold process_frame process_binary extract_payload firstDataFrame
      simp [hst, hfrag]
    rw [run_frames_cons_ok cfg s _ _ _ _ hs hstep]
    simp only [List.nil_append]
    rw [run_frames_frag cfg Opcode.BINARY pl mids _
          (by simp [hst]) (by simp) (by simp) (Or.inr rfl) (fun h => nomatch h)]
    simp [hcur]

/-- Witness for C4: the three frame fragmented TEXT message Hel, lo com
space, World with an interleaved PING delivers exactly one message whose
bytes spell Hello comma space World. -/
theorem fragmented_message_assembly_witness :
    openSession.m_state = StateVal.OPEN ∧
    utf8Accepts ([72, 101, 108] ++
        (contPayloads [MidFrame.cont [108, 111, 44, 32], MidFrame.ping [120]]
          ++ [87, 111, 114, 108, 100])) = true ∧
    messagesOf (run_frames specCfg openSession
        (firstDataFrame Opcode.TEXT [72, 101, 108] ::
          ([MidFrame.cont [108, 111, 44, 32], MidFrame.ping [120]].map midToFrame
            ++ [lastContFrame [87, 111, 114, 108, 100]]))).2
      = [Output.message Opcode.TEXT
          [72, 101, 108, 108, 111, 44, 32, 87, 111, 114, 108, 100]] :=
  ⟨rfl, by decide,
   by
     have h := fragmented_message_assembly specCfg Opcode.TEXT [72, 101, 108]
       [87, 111, 114, 108, 100] [MidFrame.cont [108, 111, 44, 32], MidFrame.ping [120]]
       openSession (Or.inl rfl) rfl rfl rfl rfl rfl (fun _ => by decide)
     simpa using h⟩

/-- C1: the server handshake handler applies its checks in the fixed
source order (request line method and HTTP version, Host presence and
validate_host, Upgrade case-insensitively websocket, Connection
containing the token upgrade case-insensitively, Sec-WebSocket-Key
presence, Sec-WebSocket-Version in the set 7, 8, 13), and the first
failing check determines the result: HTTP status 400 tagged with that
check identity, an error response instead of 101, with no later check
evaluated; when every check passes the validation succeeds with 101. -/
theorem handshake_first_failure (vh : String → Bool) (req : String)
    (hdrs : List (String × String)) :
    handle_read_handshake_checks vh req hdrs = hsReference vh req hdrs := by
  simp only [handle_read_handshake_checks, hsReference, hsCheckList, firstFailing,
             hsResource, hsVersion]
  by_cases c1 : cppSubstr req 0 4 = "GET "
  · cases c2 : strFindFrom req " HTTP/1.1" 4 with
    | none => simp [c1, c2]
    | some e =>
      by_cases c3 : get_header "Host" hdrs = ""
      · simp [c1, c2, c3]
      · cases c4 : vh (get_header "Host" hdrs) with
        | false => simp [c1, c2, c3, c4]
        | true =>
          by_cases c5 : get_header "Upgrade" hdrs = ""
          · simp [c1, c2, c3, c4, c5]
          · cases c6 : iequals (get_header "Upgrade" hdrs) "websocket" with
            | false => simp [c1, c2, c3, c4, c5, c6]
            | true =>
              by_cases c7 : get_header "Connection" hdrs = ""
              · simp [c1, c2, c3, c4, c5, c6, c7]
              · cases c8 : icontains (get_header "Connection" hdrs) "upgrade" with
                | false => simp [c1, c2, c3, c4, c5, c6, c7, c8]
                | true =>
                  by_cases c9 : get_header "Sec-WebSocket-Key" hdrs = ""
                  · simp [c1, c2, c3, c4, c5, c6, c7, c8, c9]
                  · by_cases c10 : get_header "Sec-WebSocket-Version" hdrs = ""
                    · simp [c1, c2, c3, c4, c5, c6, c7, c8, c9, c10]
                    · by_cases c11 :
                          cppUInt (atoi (get_header "Sec-WebSocket-Version" hdrs)) = 7 ∨
                          cppUInt (atoi (get_header "Sec-WebSocket-Version" hdrs)) = 8 ∨
                          cppUInt (atoi (get_header "Sec-WebSocket-Version" hdrs)) = 13
                      · rcases c11 with h | h | h <;>
                          simp [c1, c2, c3, c4, c5, c6, c7, c8, c9, c10, h]
                      · push_neg at c11
                        simp [c1, c2, c3, c4, c5, c6, c7, c8, c9, c10,
                              c11.1, c11.2.1, c11.2.2]
  · simp [c1]
end Websocketpp
